import Mathlib

/-!
Verification development for the phased asset-generation orchestrator and the
sequential media-assembly engine of the ai-video-gen repository.

The TypeScript sources are shallowly embedded: database rows become Lean
structures, the Supabase record store becomes an explicit `Store` value
threaded through each route handler, and every external effect (generation
backends, object storage, HTTP fetches) becomes an oracle function supplied as
an argument.  Nullable columns are `Option` values.  Confirmation timestamps
are modelled as `Option Nat` (an abstract instant): the code stores
`new Date().toISOString()`, a string that is never empty, so JavaScript
truthiness on these columns coincides with non-nullness.
-/

/-- JavaScript truthiness of a nullable string (`undefined`/`null` and the
empty string are falsy). -/
def jsTruthy : Option String → Bool
  | none => false
  | some s => !(s == "")

/-- JavaScript `a || b` for a nullable string `a` and a string default `b`. -/
def jsOr (o : Option String) (d : String) : String :=
  match o with
  | some s => if s == "" then d else s
  | none => d

/-- JavaScript `String.prototype.trim()` as an executable embedding over the
character list: strip leading and trailing whitespace. -/
def jsTrim (s : String) : String :=
  ⟨((s.data.dropWhile Char.isWhitespace).reverse.dropWhile Char.isWhitespace).reverse⟩

/-- JavaScript `a || b` for a nullable number `a` (`0` is falsy). -/
def jsOrNat (o : Option Nat) (d : Nat) : Nat :=
  match o with
  | some n => if n == 0 then d else n
  | none => d

/-- A `scenes` row (the columns used by the visuals routes). -/
structure Scene where
  id : String
  order_index : Nat
  image_prompt : Option String
  video_prompt : Option String
  duration_seconds : Option Nat
  status : Option String
deriving Repr, DecidableEq

/-- An `assets` row (the columns used by the visuals routes). -/
structure Asset where
  scene_id : String
  type : String
  storage_path : Option String
  status : Option String
deriving Repr, DecidableEq

/-- A `shot_lists` row (the columns used by the visuals routes). -/
structure ShotList where
  video_style : Option String
  first_image_confirmed_at : Option Nat
  all_images_confirmed_at : Option Nat
  first_video_confirmed_at : Option Nat
deriving Repr, DecidableEq

/-- The record store visible to one project's routes: the shot list's scenes
(as returned by the routes' queries, ordered by `order_index`), their assets,
the shot list row, and the project's `current_step`. -/
structure Store where
  scenes : List Scene
  assets : List Asset
  shotList : ShotList
  current_step : Int
deriving Repr, DecidableEq

/-- The workflow phases of the visuals page. -/
inductive Phase
  | phase_a | phase_b | phase_c | phase_d | complete
deriving Repr, DecidableEq

/-- Predicate for `a.scene_id === sceneId && a.type === ty && a.status === 'complete'`. -/
def isCompleteAssetFor (sceneId ty : String) (a : Asset) : Bool :=
  a.scene_id == sceneId && a.type == ty && a.status == some "complete"

/-- `assets.some(a => a.scene_id === s.id && a.type === ty && a.status === 'complete')`. -/
def sceneHasCompleteAsset (assets : List Asset) (s : Scene) (ty : String) : Bool :=
  assets.any (isCompleteAssetFor s.id ty)

/-- `scenes.every(s => assets.some(...))` — every scene has a complete asset of type `ty`. -/
def allScenesComplete (scenes : List Scene) (assets : List Asset) (ty : String) : Bool :=
  scenes.all (fun s => sceneHasCompleteAsset assets s ty)

/-- `deriveCurrentPhase` from `src/app/(editor)/project/[id]/visuals/page.tsx`. -/
def deriveCurrentPhase (scenes : List Scene) (assets : List Asset)
    (shotList : Option ShotList) (projectCurrentStep : Int) : Phase :=
  match shotList with
  | none => .phase_a
  | some sl =>
    if scenes.length == 0 then .phase_a
    else
      match scenes.find? (fun s => s.order_index == 1) with
      | none => .phase_a
      | some scene1 =>
        let scene1Image := assets.find? (isCompleteAssetFor scene1.id "image")
        let scene1Video := assets.find? (isCompleteAssetFor scene1.id "video")
        let allImagesComplete := allScenesComplete scenes assets "image"
        let allVideosComplete := allScenesComplete scenes assets "video"
        if scene1Image.isNone || sl.first_image_confirmed_at.isNone then .phase_a
        else if !allImagesComplete || sl.all_images_confirmed_at.isNone then .phase_b
        else if scene1Video.isNone || sl.first_video_confirmed_at.isNone then .phase_c
        else if !allVideosComplete || projectCurrentStep < 5 then .phase_d
        else .complete

/-- Written from the specification's words: scene 1 (the scene with
`order_index = 1`) has a complete asset of type `ty`. -/
def specScene1HasComplete (scenes : List Scene) (assets : List Asset) (ty : String) : Bool :=
  scenes.any (fun s => s.order_index == 1 && sceneHasCompleteAsset assets s ty)

/-- The phase resolver as the specification words it: Phase A if no ShotList or
no Scenes exist; otherwise the first matching rule of the ordered rule list. -/
def phaseFromSpec (scenes : List Scene) (assets : List Asset)
    (shotList : Option ShotList) (projectCurrentStep : Int) : Phase :=
  match shotList with
  | none => .phase_a
  | some sl =>
    if scenes.isEmpty then .phase_a
    else if !specScene1HasComplete scenes assets "image" || sl.first_image_confirmed_at.isNone then
      .phase_a
    else if !allScenesComplete scenes assets "image" || sl.all_images_confirmed_at.isNone then
      .phase_b
    else if !specScene1HasComplete scenes assets "video" || sl.first_video_confirmed_at.isNone then
      .phase_c
    else if !allScenesComplete scenes assets "video" || projectCurrentStep < 5 then
      .phase_d
    else .complete

theorem find?_isNone_eq_not_any {α : Type} (p : α → Bool) (l : List α) :
    (l.find? p).isNone = !l.any p := by
  induction l with
  | nil => rfl
  | cons a t ih =>
    by_cases h : p a = true
    · simp [List.find?, List.any, h]
    · simp only [Bool.not_eq_true] at h
      simp [List.find?, List.any, h, ih]

theorem specScene1_of_find?_none (scenes : List Scene) (assets : List Asset) (ty : String)
    (h : scenes.find? (fun s => s.order_index == 1) = none) :
    specScene1HasComplete scenes assets ty = false := by
  rw [List.find?_eq_none] at h
  simp only [specScene1HasComplete, List.any_eq_false]
  intro s hs
  have := h s hs
  simp only [Bool.not_eq_true] at this
  simp [this]

theorem specScene1_of_find?_some (scenes : List Scene) (assets : List Asset) (ty : String)
    (hnd : (scenes.map Scene.order_index).Nodup) (s1 : Scene)
    (h : scenes.find? (fun s => s.order_index == 1) = some s1) :
    specScene1HasComplete scenes assets ty = sceneHasCompleteAsset assets s1 ty := by
  have hmem : s1 ∈ scenes := List.mem_of_find?_eq_some h
  have hord : s1.order_index = 1 := by
    have := List.find?_some h
    simpa using this
  have hinj := List.inj_on_of_nodup_map hnd
  by_cases hc : sceneHasCompleteAsset assets s1 ty = true
  · have : specScene1HasComplete scenes assets ty = true := by
      simp only [specScene1HasComplete, List.any_eq_true]
      exact ⟨s1, hmem, by simp [hord, hc]⟩
    rw [this, hc]
  · simp only [Bool.not_eq_true] at hc
    rw [hc]
    simp only [specScene1HasComplete, List.any_eq_false]
    intro s hs
    by_cases hso : s.order_index = 1
    · have : s = s1 := hinj hs hmem (by rw [hso, hord])
      subst this
      simp [hc]
    · simp [hso]

/-- C1: on every snapshot whose scenes have pairwise-distinct `order_index`
values (the data-model invariant), `deriveCurrentPhase` returns Phase A when
no ShotList or no Scenes exist, and otherwise evaluates, in order, the rules:
Phase A if scene 1's complete image asset is absent or
`first_image_confirmed_at` is null; Phase B if not every scene has a complete
image asset or `all_images_confirmed_at` is null; Phase C if scene 1's
complete video asset is absent or `first_video_confirmed_at` is null; Phase D
if not every scene has a complete video asset or `projectCurrentStep < 5`;
otherwise Complete. -/
theorem deriveCurrentPhase_matches_spec (scenes : List Scene) (assets : List Asset)
    (shotList : Option ShotList) (projectCurrentStep : Int)
    (hnd : (scenes.map Scene.order_index).Nodup) :
    deriveCurrentPhase scenes assets shotList projectCurrentStep
      = phaseFromSpec scenes assets shotList projectCurrentStep := by
  cases shotList with
  | none => rfl
  | some sl =>
    cases scenes with
    | nil => rfl
    | cons s0 rest =>
      simp only [deriveCurrentPhase, phaseFromSpec]
      have hlen : ((s0 :: rest).length == 0) = false := by simp
      have hemp : (s0 :: rest).isEmpty = false := by simp [List.isEmpty]
      rw [hlen, hemp]
      simp only [Bool.false_eq_true, if_false]
      cases hf : (s0 :: rest).find? (fun s => s.order_index == 1) with
      | none =>
        have hi := specScene1_of_find?_none (s0 :: rest) assets "image" hf
        simp [hi]
      | some s1 =>
        have hi := specScene1_of_find?_some (s0 :: rest) assets "image" hnd s1 hf
        have hv := specScene1_of_find?_some (s0 :: rest) assets "video" hnd s1 hf
        have himg : (assets.find? (isCompleteAssetFor s1.id "image")).isNone
            = !specScene1HasComplete (s0 :: rest) assets "image" := by
          rw [find?_isNone_eq_not_any, hi]; rfl
        have hvid : (assets.find? (isCompleteAssetFor s1.id "video")).isNone
            = !specScene1HasComplete (s0 :: rest) assets "video" := by
          rw [find?_isNone_eq_not_any, hv]; rfl
        simp only [himg, hvid]

/-- Witness for `deriveCurrentPhase_matches_spec` at a concrete snapshot. -/
theorem deriveCurrentPhase_matches_spec_witness :
    deriveCurrentPhase
        [⟨"s1", 1, none, none, none, some "image_complete"⟩,
         ⟨"s2", 2, none, none, none, some "pending"⟩]
        [⟨"s1", "image", some "u", some "complete"⟩]
        (some ⟨none, some 7, none, none⟩) 4
      = phaseFromSpec
        [⟨"s1", 1, none, none, none, some "image_complete"⟩,
         ⟨"s2", 2, none, none, none, some "pending"⟩]
        [⟨"s1", "image", some "u", some "complete"⟩]
        (some ⟨none, some 7, none, none⟩) 4 :=
  deriveCurrentPhase_matches_spec _ _ _ _ (by decide)

/-- The phases accepted by the confirm route (`POST` of the confirm/reset route file). -/
inductive ConfirmPhase
  | first_image | all_images | first_video | all_videos
deriving Repr, DecidableEq

/-- The JSON body of a confirm-route response (404/400 rejections and 200 successes). -/
structure ConfirmResponse where
  status : Nat
  success : Bool
  error : Option String
  incompleteScenes : List Nat
  message : Option String
  nextPhase : Option String
  nextStep : Option Nat
deriving Repr, DecidableEq

/-- A rejection response of the confirm route. -/
def confirmReject (status : Nat) (err : String) (incomplete : List Nat) : ConfirmResponse :=
  ⟨status, false, some err, incomplete, none, none, none⟩

/-- A success response of the confirm route. -/
def confirmOk (msg : String) (nextPhase : Option String) (nextStep : Option Nat) : ConfirmResponse :=
  ⟨200, true, none, [], some msg, nextPhase, nextStep⟩

/-- The confirm route's `POST` handler (after auth/ownership/shot-list lookup),
acting on the project's store; `now` is the instant of `new Date().toISOString()`. -/
def confirm (store : Store) (phase : ConfirmPhase) (videoStyle : Option String) (now : Nat) :
    ConfirmResponse × Store :=
  if store.scenes.length == 0 then
    (confirmReject 404 "No scenes found" [], store)
  else
    match phase with
    | .first_image =>
      match store.scenes.find? (fun s => s.order_index == 1) with
      | none => (confirmReject 400 "First scene not found" [], store)
      | some firstScene =>
        if store.assets.any (isCompleteAssetFor firstScene.id "image") then
          (confirmOk "First image confirmed" (some "remaining_images") none,
           { store with shotList := { store.shotList with first_image_confirmed_at := some now } })
        else
          (confirmReject 400 "First image is not complete" [], store)
    | .all_images =>
      if allScenesComplete store.scenes store.assets "image" then
        (confirmOk "All images confirmed" (some "first_video") none,
         { store with shotList := { store.shotList with all_images_confirmed_at := some now } })
      else
        let incomplete := store.scenes.filter
          (fun s => !sceneHasCompleteAsset store.assets s "image")
        (confirmReject 400 "Not all images are complete" (incomplete.map Scene.order_index), store)
    | .first_video =>
      match videoStyle with
      | none => (confirmReject 400 "videoStyle is required" [], store)
      | some vs =>
        if jsTrim vs == "" then (confirmReject 400 "videoStyle is required" [], store)
        else
          match store.scenes.find? (fun s => s.order_index == 1) with
          | none => (confirmReject 400 "First scene not found" [], store)
          | some firstScene =>
            if store.assets.any (isCompleteAssetFor firstScene.id "video") then
              (confirmOk "First video confirmed" (some "remaining_videos") none,
               { store with shotList := { store.shotList with
                   first_video_confirmed_at := some now, video_style := some (jsTrim vs) } })
            else
              (confirmReject 400 "First video is not complete" [], store)
    | .all_videos =>
      if allScenesComplete store.scenes store.assets "video" then
        (confirmOk "All videos confirmed - Step 4 complete" none (some 5),
         { store with current_step := 5 })
      else
        let incomplete := store.scenes.filter
          (fun s => !sceneHasCompleteAsset store.assets s "video")
        (confirmReject 400 "Not all videos are complete" (incomplete.map Scene.order_index), store)

/-- C3: `confirm(all_images)` with at least one scene lacking a complete image
asset is rejected, the rejection carries exactly the `order_index` values of
the incomplete scenes, and the store is not written (in particular
`all_images_confirmed_at` keeps its value, so it remains null if it was null);
when every scene has a complete image asset the call succeeds and sets
`all_images_confirmed_at` to the current time. -/
theorem confirm_all_images_spec (store : Store) (videoStyle : Option String) (now : Nat)
    (hne : store.scenes ≠ []) :
    ((∃ s ∈ store.scenes, sceneHasCompleteAsset store.assets s "image" = false) →
       (confirm store .all_images videoStyle now).2 = store ∧
       (confirm store .all_images videoStyle now).1.status = 400 ∧
       (confirm store .all_images videoStyle now).1.success = false ∧
       (confirm store .all_images videoStyle now).1.incompleteScenes
         = (store.scenes.filter
             (fun s => !sceneHasCompleteAsset store.assets s "image")).map Scene.order_index)
    ∧ (allScenesComplete store.scenes store.assets "image" = true →
       (confirm store .all_images videoStyle now).1.success = true ∧
       (confirm store .all_images videoStyle now).2
         = { store with shotList :=
               { store.shotList with all_images_confirmed_at := some now } }) := by
  have hlen : (store.scenes.length == 0) = false := by
    simp [List.length_eq_zero, hne]
  constructor
  · rintro ⟨s, hs, hsf⟩
    have hall : allScenesComplete store.scenes store.assets "image" = false := by
      simp only [allScenesComplete, List.all_eq_false]
      exact ⟨s, hs, by simp [hsf]⟩
    simp [confirm, hlen, hall, confirmReject]
  · intro hall
    simp [confirm, hlen, hall, confirmOk]

/-- Witness for `confirm_all_images_spec`: a two-scene store where scene 2 has
no image asset (rejection carries [2]), and a store where both are complete. -/
theorem confirm_all_images_spec_witness :
    ((confirm ⟨[⟨"s1", 1, none, none, none, none⟩, ⟨"s2", 2, none, none, none, none⟩],
               [⟨"s1", "image", some "u", some "complete"⟩], ⟨none, none, none, none⟩, 4⟩
        .all_images none 7).1.incompleteScenes = [2])
    ∧ ((confirm ⟨[⟨"s1", 1, none, none, none, none⟩],
                 [⟨"s1", "image", some "u", some "complete"⟩], ⟨none, none, none, none⟩, 4⟩
        .all_images none 7).1.success = true) := by
  constructor
  · exact ((confirm_all_images_spec _ none 7 (by decide)).1
      ⟨⟨"s2", 2, none, none, none, none⟩, by decide, by decide⟩).2.2.2.trans (by decide)
  · exact ((confirm_all_images_spec _ none 7 (by decide)).2 (by decide)).1

/-- C10: `confirm(all_videos)` with every scene's video asset complete mutates
only the Project record, setting `current_step` to 5: the scenes, assets and
shot-list row (its `video_style` and all three confirmation timestamps) are
returned unchanged, and no further timestamp is recorded anywhere. -/
theorem confirm_all_videos_frame (store : Store) (videoStyle : Option String) (now : Nat)
    (hne : store.scenes ≠ [])
    (hall : allScenesComplete store.scenes store.assets "video" = true) :
    (confirm store .all_videos videoStyle now).1.success = true ∧
    (confirm store .all_videos videoStyle now).1.nextStep = some 5 ∧
    (confirm store .all_videos videoStyle now).2 = { store with current_step := 5 } ∧
    (confirm store .all_videos videoStyle now).2.scenes = store.scenes ∧
    (confirm store .all_videos videoStyle now).2.assets = store.assets ∧
    (confirm store .all_videos videoStyle now).2.shotList = store.shotList := by
  have hlen : (store.scenes.length == 0) = false := by
    simp [List.length_eq_zero, hne]
  simp [confirm, hlen, hall, confirmOk]

/-- Witness for `confirm_all_videos_frame` at a one-scene store with a
complete video asset. -/
theorem confirm_all_videos_frame_witness :
    (confirm ⟨[⟨"s1", 1, none, none, none, some "complete"⟩],
              [⟨"s1", "video", some "v", some "complete"⟩],
              ⟨some "noir", some 1, some 2, some 3⟩, 4⟩
      .all_videos none 9).2
      = ⟨[⟨"s1", 1, none, none, none, some "complete"⟩],
         [⟨"s1", "video", some "v", some "complete"⟩],
         ⟨some "noir", some 1, some 2, some 3⟩, 5⟩ :=
  (confirm_all_videos_frame _ none 9 (by decide) (by decide)).2.2.1


/-- `await supabase.from('scenes').update({ status }).eq('id', sceneId)`. -/
def setSceneStatus (store : Store) (sceneId st : String) : Store :=
  { store with
      scenes := store.scenes.map fun s =>
        if s.id == sceneId then { s with status := some st } else s }

/-- `await supabase.from('scenes').update({ image_prompt }).eq('id', sceneId)`. -/
def setSceneImagePrompt (store : Store) (sceneId p : String) : Store :=
  { store with
      scenes := store.scenes.map fun s =>
        if s.id == sceneId then { s with image_prompt := some p } else s }

/-- `await supabase.from('scenes').update({ video_prompt }).eq('id', sceneId)`. -/
def setSceneVideoPrompt (store : Store) (sceneId p : String) : Store :=
  { store with
      scenes := store.scenes.map fun s =>
        if s.id == sceneId then { s with video_prompt := some p } else s }

/-- `upsert` on `assets` with `onConflict: 'scene_id,type'`: overwrite the row
with that key if present, otherwise insert one. -/
def upsertAssetList (assets : List Asset) (sceneId ty : String)
    (path st : Option String) : List Asset :=
  if assets.any (fun a => a.scene_id == sceneId && a.type == ty) then
    assets.map fun a =>
      if a.scene_id == sceneId && a.type == ty then
        { a with storage_path := path, status := st }
      else a
  else
    assets ++ [⟨sceneId, ty, path, st⟩]

/-- Asset upsert acting on the store. -/
def upsertAsset (store : Store) (sceneId ty : String) (path st : Option String) : Store :=
  { store with assets := upsertAssetList store.assets sceneId ty path st }

/-- The JSON body of a reset-route (`DELETE`) response. -/
structure ResetResponse where
  status : Nat
  success : Bool
  error : Option String
  message : Option String
  clearedScenes : Option Nat
deriving Repr, DecidableEq

/-- The `DELETE` handler's `resetTo === 'first_image'` branch (after
auth/ownership/shot-list/scene lookups). -/
def resetToFirstImage (store : Store) : ResetResponse × Store :=
  if store.scenes.length == 0 then
    (⟨404, false, some "No scenes found", none, none⟩, store)
  else
    let scenesToClear := store.scenes.filter fun s => s.order_index > 1
    let clearIds := scenesToClear.map Scene.id
    let afterImages :=
      if scenesToClear.length > 0 then
        { store with
            assets := store.assets.filter fun a =>
              !(clearIds.contains a.scene_id && a.type == "image"),
            scenes := store.scenes.map fun s =>
              if clearIds.contains s.id then { s with status := some "pending" } else s }
      else store
    let afterConfirm := { afterImages with shotList :=
      { afterImages.shotList with
          first_image_confirmed_at := none,
          all_images_confirmed_at := none,
          first_video_confirmed_at := none,
          video_style := none } }
    let allIds := store.scenes.map Scene.id
    let afterVideos := { afterConfirm with assets := afterConfirm.assets.filter fun a =>
      !(allIds.contains a.scene_id && a.type == "video") }
    (⟨200, true, none, some "Reset to Phase A - first image generation",
      some scenesToClear.length⟩, afterVideos)

theorem deriveCurrentPhase_of_no_first_confirm (scenes : List Scene) (assets : List Asset)
    (sl : ShotList) (step : Int) (h : sl.first_image_confirmed_at = none) :
    deriveCurrentPhase scenes assets (some sl) step = .phase_a := by
  cases scenes with
  | nil => rfl
  | cons s0 rest =>
    simp only [deriveCurrentPhase]
    have hlen : ((s0 :: rest).length == 0) = false := by simp
    rw [hlen]
    simp only [Bool.false_eq_true, if_false]
    cases hf : (s0 :: rest).find? (fun s => s.order_index == 1) with
    | none => rfl
    | some s1 => simp [h]

theorem set_pending_id (cIds : List String) (s : Scene) :
    (if cIds.contains s.id then { s with status := some "pending" } else s).id = s.id := by
  split <;> rfl

theorem set_pending_order (cIds : List String) (s : Scene) :
    (if cIds.contains s.id then { s with status := some "pending" } else s).order_index
      = s.order_index := by
  split <;> rfl

theorem set_pending_status (cIds : List String) (s : Scene)
    (h : cIds.contains s.id = true) :
    (if cIds.contains s.id then { s with status := some "pending" } else s).status
      = some "pending" := by
  rw [if_pos h]

/-- C4: after `resetToFirstImage` on a store with at least one scene, the
store holds no video asset for any scene of the shot list, no image asset for
a scene with `order_index > 1`, those scenes' statuses are `pending`, all
three confirmation timestamps and `video_style` are null, and the phase
resolver on the resulting state returns Phase A. -/
theorem resetToFirstImage_spec (store : Store) (step : Int) (hne : store.scenes ≠ []) :
    (∀ a ∈ (resetToFirstImage store).2.assets, a.type = "video" →
       a.scene_id ∉ (resetToFirstImage store).2.scenes.map Scene.id) ∧
    (∀ a ∈ (resetToFirstImage store).2.assets, a.type = "image" →
       ∀ s ∈ (resetToFirstImage store).2.scenes, s.id = a.scene_id → ¬ 1 < s.order_index) ∧
    (∀ s ∈ (resetToFirstImage store).2.scenes, 1 < s.order_index →
       s.status = some "pending") ∧
    (resetToFirstImage store).2.shotList.first_image_confirmed_at = none ∧
    (resetToFirstImage store).2.shotList.all_images_confirmed_at = none ∧
    (resetToFirstImage store).2.shotList.first_video_confirmed_at = none ∧
    (resetToFirstImage store).2.shotList.video_style = none ∧
    deriveCurrentPhase (resetToFirstImage store).2.scenes (resetToFirstImage store).2.assets
      (some (resetToFirstImage store).2.shotList) step = .phase_a := by
  have hlen : (store.scenes.length == 0) = false := by
    simp [List.length_eq_zero, hne]
  by_cases hc : (store.scenes.filter fun s => s.order_index > 1).length > 0
  · have hst : (resetToFirstImage store).2 =
        { scenes := store.scenes.map fun s =>
            if ((store.scenes.filter fun t => t.order_index > 1).map Scene.id).contains s.id
            then { s with status := some "pending" } else s,
          assets := (store.assets.filter fun a =>
              !(((store.scenes.filter fun t => t.order_index > 1).map Scene.id).contains a.scene_id
                && a.type == "image")).filter fun a =>
            !((store.scenes.map Scene.id).contains a.scene_id && a.type == "video"),
          shotList := ⟨none, none, none, none⟩,
          current_step := store.current_step } := by
      simp only [resetToFirstImage, hlen, Bool.false_eq_true, if_false, if_pos hc]
    rw [hst]
    dsimp only
    refine ⟨?_, ?_, ?_, rfl, rfl, rfl, rfl,
      deriveCurrentPhase_of_no_first_confirm _ _ _ _ rfl⟩
    · intro a ha hav
      rw [List.mem_filter] at ha
      have hp2 := ha.2
      rw [hav] at hp2
      simp only [List.elem_eq_mem, beq_self_eq_true, Bool.and_true, Bool.not_eq_eq_eq_not,
        Bool.not_true, decide_eq_false_iff_not] at hp2
      rw [List.map_map]
      have : ∀ s ∈ store.scenes,
          (Scene.id ∘ fun s =>
            if ((store.scenes.filter fun t => t.order_index > 1).map Scene.id).contains s.id
            then { s with status := some "pending" } else s) s = Scene.id s :=
        fun s _ => set_pending_id _ s
      rw [List.map_congr_left this]
      exact hp2
    · intro a ha hai s hs hsid hord
      rw [List.mem_filter] at ha
      have ha1 := ha.1
      rw [List.mem_filter] at ha1
      have hp1 := ha1.2
      rw [List.mem_map] at hs
      obtain ⟨s0, hs0, rfl⟩ := hs
      rw [set_pending_order] at hord
      rw [set_pending_id] at hsid
      have hs0id : s0.id ∈ (store.scenes.filter fun t => t.order_index > 1).map Scene.id := by
        rw [List.mem_map]
        exact ⟨s0, by rw [List.mem_filter]; exact ⟨hs0, by simpa using hord⟩, rfl⟩
      rw [← hsid, hai] at hp1
      simp only [List.elem_eq_mem, beq_self_eq_true, Bool.and_true, Bool.not_eq_eq_eq_not,
        Bool.not_true, decide_eq_false_iff_not] at hp1
      exact hp1 hs0id
    · intro s hs hord
      rw [List.mem_map] at hs
      obtain ⟨s0, hs0, rfl⟩ := hs
      rw [set_pending_order] at hord
      apply set_pending_status
      refine List.elem_iff.mpr ?_
      rw [List.mem_map]
      exact ⟨s0, by rw [List.mem_filter]; exact ⟨hs0, by simpa using hord⟩, rfl⟩
  · have hempty : (store.scenes.filter fun s => s.order_index > 1) = [] := by
      rw [← List.length_eq_zero]
      omega
    have hnone : ∀ s ∈ store.scenes, ¬ 1 < s.order_index := by
      intro s hs hord
      have hmem : s ∈ (store.scenes.filter fun s => s.order_index > 1) := by
        rw [List.mem_filter]; exact ⟨hs, by simpa using hord⟩
      rw [hempty] at hmem
      exact absurd hmem (List.not_mem_nil s)
    have hst : (resetToFirstImage store).2 =
        { scenes := store.scenes,
          assets := store.assets.filter fun a =>
            !((store.scenes.map Scene.id).contains a.scene_id && a.type == "video"),
          shotList := ⟨none, none, none, none⟩,
          current_step := store.current_step } := by
      simp only [resetToFirstImage, hlen, Bool.false_eq_true, if_false, if_neg hc]
    rw [hst]
    dsimp only
    refine ⟨?_, ?_, ?_, rfl, rfl, rfl, rfl,
      deriveCurrentPhase_of_no_first_confirm _ _ _ _ rfl⟩
    · intro a ha hav
      rw [List.mem_filter] at ha
      have hp2 := ha.2
      rw [hav] at hp2
      simp only [List.elem_eq_mem, beq_self_eq_true, Bool.and_true, Bool.not_eq_eq_eq_not,
        Bool.not_true, decide_eq_false_iff_not] at hp2
      exact hp2
    · intro a _ _ s hs _ hord
      exact hnone s hs hord
    · intro s hs hord
      exact absurd hord (hnone s hs)

/-- Witness for `resetToFirstImage_spec` on a two-scene store with images,
videos, confirmations and a video style all present. -/
theorem resetToFirstImage_spec_witness :
    (resetToFirstImage ⟨[⟨"s1", 1, none, none, none, some "complete"⟩,
                         ⟨"s2", 2, none, none, none, some "complete"⟩],
                        [⟨"s1", "image", some "u1", some "complete"⟩,
                         ⟨"s2", "image", some "u2", some "complete"⟩,
                         ⟨"s1", "video", some "v1", some "complete"⟩,
                         ⟨"s2", "video", some "v2", some "complete"⟩],
                        ⟨some "noir", some 1, some 2, some 3⟩, 4⟩).2.shotList.video_style = none
    ∧ deriveCurrentPhase
        (resetToFirstImage ⟨[⟨"s1", 1, none, none, none, some "complete"⟩,
                             ⟨"s2", 2, none, none, none, some "complete"⟩],
                            [⟨"s1", "image", some "u1", some "complete"⟩,
                             ⟨"s2", "image", some "u2", some "complete"⟩,
                             ⟨"s1", "video", some "v1", some "complete"⟩,
                             ⟨"s2", "video", some "v2", some "complete"⟩],
                            ⟨some "noir", some 1, some 2, some 3⟩, 4⟩).2.scenes
        (resetToFirstImage ⟨[⟨"s1", 1, none, none, none, some "complete"⟩,
                             ⟨"s2", 2, none, none, none, some "complete"⟩],
                            [⟨"s1", "image", some "u1", some "complete"⟩,
                             ⟨"s2", "image", some "u2", some "complete"⟩,
                             ⟨"s1", "video", some "v1", some "complete"⟩,
                             ⟨"s2", "video", some "v2", some "complete"⟩],
                            ⟨some "noir", some 1, some 2, some 3⟩, 4⟩).2.assets
        (some (resetToFirstImage ⟨[⟨"s1", 1, none, none, none, some "complete"⟩,
                             ⟨"s2", 2, none, none, none, some "complete"⟩],
                            [⟨"s1", "image", some "u1", some "complete"⟩,
                             ⟨"s2", "image", some "u2", some "complete"⟩,
                             ⟨"s1", "video", some "v1", some "complete"⟩,
                             ⟨"s2", "video", some "v2", some "complete"⟩],
                            ⟨some "noir", some 1, some 2, some 3⟩, 4⟩).2.shotList) 4 = .phase_a := by
  have h := resetToFirstImage_spec
    ⟨[⟨"s1", 1, none, none, none, some "complete"⟩,
      ⟨"s2", 2, none, none, none, some "complete"⟩],
     [⟨"s1", "image", some "u1", some "complete"⟩,
      ⟨"s2", "image", some "u2", some "complete"⟩,
      ⟨"s1", "video", some "v1", some "complete"⟩,
      ⟨"s2", "video", some "v2", some "complete"⟩],
     ⟨some "noir", some 1, some 2, some 3⟩, 4⟩ 4 (by decide)
  exact ⟨h.2.2.2.2.2.2.1, h.2.2.2.2.2.2.2⟩

/-- `const MAX_RETRIES = 3`. -/
def MAX_RETRIES : Nat := 3

/-- `const RETRY_DELAY_MS = 2000`. -/
def RETRY_DELAY_MS : Nat := 2000

/-- Observable outcome of one `retryWithBackoff` invocation: the returned
value or the re-raised last error (`.error none` is the degenerate
`throw lastError` with `lastError` still `undefined`, reachable only with
`retries = 0`), the number of times `fn` was invoked, and the list of backoff
waits (in ms) in order. -/
structure RetryTrace (E A : Type) where
  result : Except (Option E) A
  calls : Nat
  delays : List Nat

/-- The `for` loop of `retryWithBackoff`, at loop counter `attempt`, with
`fuel` iterations remaining and `lastError` accumulated so far.  `fn n` is
what the `n`-th invocation of `fn` does: returns a value or throws. -/
def retryAux {E A : Type} (fn : Nat → Except E A) (retries : Nat) :
    Nat → Nat → Option E → RetryTrace E A
  | 0, _, lastError => ⟨.error lastError, 0, []⟩
  | fuel + 1, attempt, _ =>
    match fn attempt with
    | .ok a => ⟨.ok a, 1, []⟩
    | .error e =>
      let rest := retryAux fn retries fuel (attempt + 1) (some e)
      if attempt < retries - 1 then
        ⟨rest.result, rest.calls + 1, RETRY_DELAY_MS * 2 ^ attempt :: rest.delays⟩
      else
        ⟨rest.result, rest.calls + 1, rest.delays⟩

/-- `retryWithBackoff(fn, retries)` from `src/app/api/generate/visuals/route.ts`. -/
def retryWithBackoff {E A : Type} (fn : Nat → Except E A) (retries : Nat := MAX_RETRIES) :
    RetryTrace E A :=
  retryAux fn retries retries 0 none

/-- C7: with `maxAttempts = 3` and `baseDelay = 2000 ms`, a function that
throws on its first two invocations and succeeds on the third makes the
wrapper return the success value after backoff waits of
`baseDelay * 2^attempt` (2000 ms then 4000 ms); a function that throws on
every invocation is invoked exactly `maxAttempts = 3` times and the last
error is re-raised. -/
theorem retryWithBackoff_spec {E A : Type} (fn : Nat → Except E A) :
    (∀ e0 e1 v, fn 0 = .error e0 → fn 1 = .error e1 → fn 2 = .ok v →
       retryWithBackoff fn 3 = ⟨.ok v, 3, [2000, 4000]⟩)
    ∧ ((∀ n, n < 3 → ∃ e, fn n = .error e) →
       (retryWithBackoff fn 3).calls = 3 ∧
       ∃ e, fn 2 = .error e ∧ (retryWithBackoff fn 3).result = .error (some e)) := by
  constructor
  · intro e0 e1 v h0 h1 h2
    simp [retryWithBackoff, retryAux, h0, h1, h2, RETRY_DELAY_MS]
  · intro hall
    obtain ⟨e0, h0⟩ := hall 0 (by omega)
    obtain ⟨e1, h1⟩ := hall 1 (by omega)
    obtain ⟨e2, h2⟩ := hall 2 (by omega)
    refine ⟨?_, e2, h2, ?_⟩ <;>
      simp [retryWithBackoff, retryAux, h0, h1, h2]

/-- A function that throws "boom" twice, then returns 42. -/
def exThrowsTwice : Nat → Except String Nat :=
  fun n => if n < 2 then .error "boom" else .ok 42

/-- A function that always throws, with a distinct message per attempt. -/
def exAlwaysThrows : Nat → Except String Nat :=
  fun n => .error (toString n)

/-- Witness for `retryWithBackoff_spec` at the two concrete functions. -/
theorem retryWithBackoff_spec_witness :
    retryWithBackoff exThrowsTwice 3 = ⟨.ok 42, 3, [2000, 4000]⟩ ∧
    (retryWithBackoff exAlwaysThrows 3).calls = 3 := by
  constructor
  · exact (retryWithBackoff_spec exThrowsTwice).1 "boom" "boom" 42 rfl rfl rfl
  · exact ((retryWithBackoff_spec exAlwaysThrows).2
      (fun n _ => ⟨toString n, rfl⟩)).1

/-- Result of an awaited external call: a returned value, or a thrown
exception with message `msg` (caught by the enclosing `try`). -/
inductive CallResult (α : Type)
  | ok (val : α)
  | thrown (msg : String)

/-- `part.inlineData` of a Gemini response part. -/
structure InlineData where
  mimeType : Option String
  data : Option String

/-- A part of a Gemini response candidate (`candidates[0].content?.parts` element). -/
structure ImagePart where
  text : Option String
  inlineData : Option InlineData

/-- A Gemini `generateContent` candidate; `parts` stands for `content?.parts`. -/
structure Candidate where
  parts : Option (List ImagePart)

/-- A Gemini `generateContent` response. -/
structure GenContentResponse where
  candidates : Option (List Candidate)

/-- `imageData` of a successful image generation. -/
structure ImageData where
  base64 : String
  mimeType : String
deriving Repr, DecidableEq

/-- `GenerateImageResult` from `src/lib/ai/image-service.ts`. -/
structure GenerateImageResult where
  success : Bool
  imageData : Option ImageData
  error : Option String
deriving Repr, DecidableEq

/-- The `for (const part of parts)` loop of `generateImage`: first part whose
`inlineData?.data` is truthy wins. -/
def findImagePart : List ImagePart → GenerateImageResult
  | [] => ⟨false, none, some "No image found in response"⟩
  | p :: rest =>
    match p.inlineData with
    | none => findImagePart rest
    | some d =>
      match d.data with
      | none => findImagePart rest
      | some s =>
        if s == "" then findImagePart rest
        else ⟨true, some ⟨s, jsOr d.mimeType "image/png"⟩, none⟩

/-- `generateImage` from `src/lib/ai/image-service.ts`.  The `generateContent`
call is the oracle `response`; the whole body is wrapped in `try/catch`, so a
thrown call surfaces as a structured `{success:false, error}` value. -/
def generateImage (prompt : String) (referenceImageBase64 : Option String)
    (response : CallResult GenContentResponse) : GenerateImageResult :=
  match response with
  | .thrown msg => ⟨false, none, some msg⟩
  | .ok resp =>
    match resp.candidates with
    | none => ⟨false, none, some "No candidates returned from model"⟩
    | some [] => ⟨false, none, some "No candidates returned from model"⟩
    | some (c :: _) =>
      match c.parts with
      | none => ⟨false, none, some "No parts in response"⟩
      | some parts => findImagePart parts

/-- `const POLL_INTERVAL_MS = 5000`. -/
def POLL_INTERVAL_MS : Nat := 5000

/-- `const MAX_POLL_ATTEMPTS = 120`. -/
def MAX_POLL_ATTEMPTS : Nat := 120

/-- `video` of a generated-video entry; byte buffers are carried as their
base64 text. -/
structure VideoObjRef where
  videoBytes : Option String
  uri : Option String

/-- One entry of `response?.generatedVideos`. -/
structure GeneratedVideo where
  video : Option VideoObjRef

/-- `currentOperation.response`. -/
structure VideoOpResponse where
  generatedVideos : Option (List GeneratedVideo)
  raiMediaFilteredCount : Option Nat
  raiMediaFilteredReasons : Option (List String)

/-- A Veo long-running operation value; `error` stands for
`JSON.stringify(currentOperation.error)` when the error object is present. -/
structure VideoOperation where
  name : Option String
  done : Bool
  error : Option String
  response : Option VideoOpResponse

/-- The external effects of one `generateVideo` call: the initial
`generateVideos` call, the `getVideosOperation` poll (indexed by poll count),
the SDK download (including the temp-file read), and the direct-fetch
fallback (`none` both when the response is not ok and when it throws). -/
structure VideoOracle where
  start : CallResult VideoOperation
  poll : Nat → CallResult VideoOperation
  download : CallResult String
  fallbackFetch : Option String

/-- `GenerateVideoResult` from `src/lib/ai/video-service.ts`. -/
structure GenerateVideoResult where
  success : Bool
  videoBuffer : Option String
  videoUri : Option String
  error : Option String
deriving Repr, DecidableEq

/-- The `while (!currentOperation.done && attempts < MAX_POLL_ATTEMPTS)` loop;
a thrown poll escapes to the surrounding `try`. -/
def pollLoop (poll : Nat → CallResult VideoOperation) :
    Nat → VideoOperation → Nat → CallResult VideoOperation
  | _, cur, 0 => .ok cur
  | attempts, cur, fuel + 1 =>
    if !cur.done && attempts < MAX_POLL_ATTEMPTS then
      match poll attempts with
      | .thrown m => .thrown m
      | .ok next => pollLoop poll (attempts + 1) next fuel
    else .ok cur

/-- `reasons?.join(', ') || 'unknown reason'`. -/
def raiReasonsText (reasons : Option (List String)) : String :=
  jsOr (reasons.map (String.intercalate ", ")) "unknown reason"

/-- `generateVideo` from `src/lib/ai/video-service.ts`: starts the operation,
polls to completion with a bounded attempt count, then extracts bytes
(directly, via SDK download, or via the fetch fallback).  The whole body is
inside `try/catch`, so every thrown oracle step surfaces as a structured
failure value. -/
def generateVideo (prompt : String) (imageBase64 : Option String)
    (durationSeconds : Nat) (o : VideoOracle) : GenerateVideoResult :=
  match o.start with
  | .thrown msg => ⟨false, none, none, some msg⟩
  | .ok operation =>
    if !(jsTruthy operation.name) then
      ⟨false, none, none, some "No operation name returned"⟩
    else
      match pollLoop o.poll 0 operation (MAX_POLL_ATTEMPTS + 1) with
      | .thrown msg => ⟨false, none, none, some msg⟩
      | .ok cur =>
        if !cur.done then
          ⟨false, none, none, some ("Video generation timed out after "
            ++ toString (MAX_POLL_ATTEMPTS * POLL_INTERVAL_MS / 1000) ++ " seconds")⟩
        else
          match cur.error with
          | some e => ⟨false, none, none, some ("Video generation failed: " ++ e)⟩
          | none =>
            match cur.response.bind VideoOpResponse.generatedVideos with
            | none =>
              if (cur.response.bind VideoOpResponse.raiMediaFilteredCount).getD 0 ≠ 0 then
                ⟨false, none, none, some ("Video filtered by content policy: "
                  ++ raiReasonsText (cur.response.bind VideoOpResponse.raiMediaFilteredReasons))⟩
              else ⟨false, none, none, some "No videos generated"⟩
            | some [] =>
              if (cur.response.bind VideoOpResponse.raiMediaFilteredCount).getD 0 ≠ 0 then
                ⟨false, none, none, some ("Video filtered by content policy: "
                  ++ raiReasonsText (cur.response.bind VideoOpResponse.raiMediaFilteredReasons))⟩
              else ⟨false, none, none, some "No videos generated"⟩
            | some (g :: _) =>
              match g.video with
              | none => ⟨false, none, none, some "No video object in response"⟩
              | some v =>
                if jsTruthy v.videoBytes then
                  ⟨true, some (v.videoBytes.getD ""), v.uri, none⟩
                else if jsTruthy v.uri then
                  match o.download with
                  | .ok bytes => ⟨true, some bytes, v.uri, none⟩
                  | .thrown derr =>
                    match o.fallbackFetch with
                    | some bytes => ⟨true, some bytes, v.uri, none⟩
                    | none => ⟨false, none, v.uri,
                        some ("Failed to download video: " ++ derr)⟩
                else ⟨false, none, none, some "No video bytes or URI in response"⟩

/-- C8: a backend call that never throws is never retried: the wrapper invokes
it exactly once, with no backoff wait, and returns its value unchanged; the
modelled `generateImage` and `generateVideo` are total functions of their
oracles (they catch every internal error, a thrown external step yielding a
structured `{success:false, error}` value), so wrapping either of them never
re-attempts a structured failure. -/
theorem structured_failures_not_retried {E A : Type} (v : A)
    (p : String) (ref : Option String) (resp : CallResult GenContentResponse)
    (vp : String) (img : Option String) (dur : Nat) (o : VideoOracle) :
    retryWithBackoff (E := E) (fun _ => Except.ok v) MAX_RETRIES = ⟨.ok v, 1, []⟩
    ∧ retryWithBackoff (E := E) (fun _ => Except.ok (generateImage p ref resp)) MAX_RETRIES
        = ⟨.ok (generateImage p ref resp), 1, []⟩
    ∧ retryWithBackoff (E := E) (fun _ => Except.ok (generateVideo vp img dur o)) MAX_RETRIES
        = ⟨.ok (generateVideo vp img dur o), 1, []⟩
    ∧ (∀ msg, generateImage p ref (.thrown msg) = ⟨false, none, some msg⟩)
    ∧ (∀ msg poll dl fb, generateVideo vp img dur ⟨.thrown msg, poll, dl, fb⟩
        = ⟨false, none, none, some msg⟩) :=
  ⟨rfl, rfl, rfl, fun _ => rfl, fun _ _ _ _ => rfl⟩

/-- `String(n).padStart(2, '0')`. -/
def padStart2 (n : Nat) : String :=
  let s := toString n
  if s.length < 2 then "0" ++ s else s

/-- One entry of the `results` array returned by the generate-visuals route. -/
structure SceneResult where
  sceneId : String
  success : Bool
  error : Option String
  url : Option String
deriving Repr, DecidableEq

/-- The request fields of the generate-visuals route used by the
`remaining_images` branch. -/
structure ImagesRequest where
  sceneId : Option String
  imagePrompt : Option String
deriving Repr, DecidableEq

/-- The external effects of one generate-visuals request: the caller identity
and project (for storage paths), the image/video backends' responses per scene
id, whether `base64ToBlob` throws for a scene, per-path upload errors, public
URLs, and the raw HTTP fetch of a storage path (`none` when `!response.ok` or
the fetch throws). -/
structure VisualsOracle where
  userId : String
  projectId : String
  imageResponse : String → CallResult GenContentResponse
  videoOracle : String → VideoOracle
  blobThrow : String → Option String
  uploadError : String → Option String
  publicUrl : String → String
  fetchBytes : String → Option String

/-- `getFirstImageBase64` from the generate-visuals route: head of the
order_index-ordered scene list, its complete image asset, then the fetch. -/
def getFirstImageBase64 (scenes : List Scene) (assets : List Asset)
    (fetchBytes : String → Option String) : Option String :=
  match scenes.head? with
  | none => none
  | some firstScene =>
    match assets.find? (fun a =>
        a.scene_id == firstScene.id && a.type == "image" && a.status == some "complete") with
    | none => none
    | some imageAsset =>
      match imageAsset.storage_path with
      | none => none
      | some p => if p == "" then none else fetchBytes p

/-- `getSceneImageBase64` from the generate-visuals route. -/
def getSceneImageBase64 (assets : List Asset) (fetchBytes : String → Option String)
    (sceneId : String) : Option String :=
  match assets.find? (fun a =>
      a.scene_id == sceneId && a.type == "image" && a.status == some "complete") with
  | none => none
  | some imageAsset =>
    match imageAsset.storage_path with
    | none => none
    | some p => if p == "" then none else fetchBytes p

/-- One iteration of the `remaining_images` loop for `scene`: mark
`generating`, build the prompt, call the image backend (through the retry
wrapper), then upload/upsert or record the failure.  The backend is called
exactly once per iteration (`generateImage` is a value, never a throw, so
`retryWithBackoff` makes a single call). -/
def processRemainingImage (o : VisualsOracle) (req : ImagesRequest)
    (referenceImageBase64 : String) (store : Store) (scene : Scene) :
    Store × SceneResult :=
  let store := setSceneStatus store scene.id "generating"
  let prompt := if jsTruthy req.sceneId && jsTruthy req.imagePrompt then req.imagePrompt.getD ""
    else jsOr scene.image_prompt ("Documentary scene " ++ toString scene.order_index)
  let store := if jsTruthy req.sceneId && jsTruthy req.imagePrompt then
    setSceneImagePrompt store scene.id (req.imagePrompt.getD "") else store
  let imageResult := generateImage prompt (some referenceImageBase64) (o.imageResponse scene.id)
  if !imageResult.success || imageResult.imageData.isNone then
    (setSceneStatus store scene.id "failed",
     ⟨scene.id, false, some (jsOr imageResult.error "Image generation failed"), none⟩)
  else
    match o.blobThrow scene.id with
    | some msg =>
      (setSceneStatus store scene.id "failed", ⟨scene.id, false, some msg, none⟩)
    | none =>
      let imageFileName := o.userId ++ "/" ++ o.projectId ++ "/images/scene_"
        ++ padStart2 scene.order_index ++ ".png"
      match o.uploadError imageFileName with
      | some e =>
        (setSceneStatus store scene.id "failed",
         ⟨scene.id, false, some ("Image upload failed: " ++ e), none⟩)
      | none =>
        let imageUrl := o.publicUrl imageFileName
        let store := upsertAsset store scene.id "image" (some imageUrl) (some "complete")
        let store := setSceneStatus store scene.id "image_complete"
        (store, ⟨scene.id, true, none, some imageUrl⟩)

/-- The `for (const scene of scenesToProcess)` loop of `remaining_images`,
also counting the generation requests issued. -/
def runRemainingImages (o : VisualsOracle) (req : ImagesRequest)
    (referenceImageBase64 : String) :
    Store → List Scene → Store × List SceneResult × Nat
  | store, [] => (store, [], 0)
  | store, scene :: rest =>
    let step := processRemainingImage o req referenceImageBase64 store scene
    let restRun := runRemainingImages o req referenceImageBase64 step.1 rest
    (restRun.1, step.2 :: restRun.2.1, restRun.2.2 + 1)

/-- Outcome of the `remaining_images` branch: the early-return error response
(message and HTTP status) if any, the ordered per-scene results, the number of
generation requests issued, and the resulting store. -/
structure ImagesRun where
  routeError : Option (String × Nat)
  results : List SceneResult
  genCalls : Nat
  store : Store

/-- The `case 'remaining_images'` branch of the generate-visuals route
(after auth/ownership/shot-list/scene lookups). -/
def remainingImages (o : VisualsOracle) (req : ImagesRequest) (store : Store) : ImagesRun :=
  match getFirstImageBase64 store.scenes store.assets o.fetchBytes with
  | none =>
    ⟨some ("First image not found. Please generate and confirm the first image first.", 400),
     [], 0, store⟩
  | some referenceImageBase64 =>
    let scenesToProcess := if jsTruthy req.sceneId then
        store.scenes.filter (fun s => s.id == req.sceneId.getD "")
      else
        store.scenes.filter (fun s => s.order_index > 1)
    let run := runRemainingImages o req referenceImageBase64 store scenesToProcess
    ⟨none, run.2.1, run.2.2, run.1⟩

theorem processRemainingImage_sceneId (o : VisualsOracle) (req : ImagesRequest)
    (ref : String) (store : Store) (scene : Scene) :
    (processRemainingImage o req ref store scene).2.sceneId = scene.id := by
  simp only [processRemainingImage]
  repeat' split
  all_goals rfl

theorem runRemainingImages_spec (o : VisualsOracle) (req : ImagesRequest) (ref : String) :
    ∀ (targets : List Scene) (store : Store),
      (runRemainingImages o req ref store targets).2.2 = targets.length ∧
      (runRemainingImages o req ref store targets).2.1.map SceneResult.sceneId
        = targets.map Scene.id := by
  intro targets
  induction targets with
  | nil => intro store; exact ⟨rfl, rfl⟩
  | cons scene rest ih =>
    intro store
    have h := ih (processRemainingImage o req ref store scene).1
    constructor
    · simp only [runRemainingImages, h.1, List.length_cons]
    · simp only [runRemainingImages, List.map_cons, h.2,
        processRemainingImage_sceneId]

theorem filter_order_gt_one_eq_drop (scenes : List Scene)
    (horder : ∀ i (h : i < scenes.length), scenes[i].order_index = i + 1) :
    scenes.filter (fun s => s.order_index > 1) = scenes.drop 1 := by
  cases scenes with
  | nil => rfl
  | cons s0 rest =>
    have h0 : s0.order_index = 1 := horder 0 (by simp)
    have hrest : ∀ s ∈ rest, (fun s => decide (s.order_index > 1)) s = true := by
      intro s hs
      obtain ⟨j, hj, rfl⟩ := List.mem_iff_getElem.mp hs
      have := horder (j + 1) (by simpa using Nat.succ_lt_succ hj)
      simp only [List.getElem_cons_succ] at this
      simp [this]
    simp only [List.filter_cons, h0]
    rw [if_neg (by simp), List.filter_eq_self.mpr hrest, List.drop_one, List.tail_cons]

theorem filter_id_length_one (scenes : List Scene) (sid : String)
    (hnodup : (scenes.map Scene.id).Nodup) (hmem : sid ∈ scenes.map Scene.id) :
    (scenes.filter (fun s => s.id == sid)).length = 1 := by
  induction scenes with
  | nil => simp at hmem
  | cons s rest ih =>
    simp only [List.map_cons, List.nodup_cons] at hnodup
    by_cases h : s.id = sid
    · have hno : rest.filter (fun s => s.id == sid) = [] := by
        rw [List.filter_eq_nil]
        intro t ht
        simp only [beq_iff_eq]
        intro hts
        exact hnodup.1 (by rw [h, ← hts]; exact List.mem_map_of_mem Scene.id ht)
      simp [List.filter_cons, h, hno]
    · have hmem' : sid ∈ rest.map Scene.id := by
        rcases List.mem_cons.mp hmem with h' | h'
        · exact absurd h'.symm h
        · exact h'
      rw [List.filter_cons, if_neg (by simp [h])]
      exact ih hnodup.2 hmem'

/-- C2: with the reference image available and scenes numbered contiguously
from 1 in list order, `remaining_images` without a single scene id processes
exactly the scenes with `order_index > 1` in ascending order — issuing exactly
`N − 1` generation requests and producing one tagged result per target scene
in target order, for every combination of per-scene outcomes (so scene `k`'s
failure never prevents scene `k+1`); with a single (existing) scene id it
issues exactly 1 generation request. -/
theorem remainingImages_batch (o : VisualsOracle) (req : ImagesRequest) (store : Store)
    (N : Nat) (hN : store.scenes.length = N)
    (horder : ∀ i (h : i < store.scenes.length), store.scenes[i].order_index = i + 1)
    (href : (getFirstImageBase64 store.scenes store.assets o.fetchBytes).isSome) :
    (req.sceneId = none →
      (remainingImages o req store).routeError = none ∧
      (remainingImages o req store).genCalls = N - 1 ∧
      (remainingImages o req store).results.map SceneResult.sceneId
        = (store.scenes.filter (fun s => s.order_index > 1)).map Scene.id ∧
      (store.scenes.filter (fun s => s.order_index > 1)).length = N - 1)
    ∧ (∀ sid, req.sceneId = some sid → sid ≠ "" →
        (store.scenes.map Scene.id).Nodup → sid ∈ store.scenes.map Scene.id →
        (remainingImages o req store).genCalls = 1) := by
  obtain ⟨ref, href⟩ := Option.isSome_iff_exists.mp href
  have hdrop := filter_order_gt_one_eq_drop store.scenes horder
  constructor
  · intro hnone
    have htr : jsTruthy req.sceneId = false := by rw [hnone]; rfl
    have hrun := runRemainingImages_spec o req ref
      (store.scenes.filter (fun s => s.order_index > 1)) store
    have hres : remainingImages o req store =
        ⟨none,
         (runRemainingImages o req ref store
           (store.scenes.filter (fun s => s.order_index > 1))).2.1,
         (runRemainingImages o req ref store
           (store.scenes.filter (fun s => s.order_index > 1))).2.2,
         (runRemainingImages o req ref store
           (store.scenes.filter (fun s => s.order_index > 1))).1⟩ := by
      simp only [remainingImages, href, htr, Bool.false_eq_true, if_false]
    rw [hres]
    have hlen : (store.scenes.filter (fun s => s.order_index > 1)).length = N - 1 := by
      rw [hdrop, List.length_drop, hN]
    exact ⟨rfl, by rw [hrun.1, hlen], hrun.2, hlen⟩
  · intro sid hsid hne hnodup hmem
    have htr : jsTruthy req.sceneId = true := by
      rw [hsid]
      simp [jsTruthy, hne]
    have hget : req.sceneId.getD "" = sid := by rw [hsid]; rfl
    have hres : remainingImages o req store =
        ⟨none,
         (runRemainingImages o req ref store
           (store.scenes.filter (fun s => s.id == sid))).2.1,
         (runRemainingImages o req ref store
           (store.scenes.filter (fun s => s.id == sid))).2.2,
         (runRemainingImages o req ref store
           (store.scenes.filter (fun s => s.id == sid))).1⟩ := by
      simp only [remainingImages, href, htr, if_true, hget]
    rw [hres]
    have hrun := runRemainingImages_spec o req ref
      (store.scenes.filter (fun s => s.id == sid)) store
    rw [hrun.1]
    exact filter_id_length_one store.scenes sid hnodup hmem

/-- A backend oracle whose image generation always succeeds and whose storage
operations never fail. -/
def exImagesOracle : VisualsOracle :=
  ⟨"u", "p", fun _ => .ok ⟨some [⟨some [⟨none, some ⟨some "image/png", some "b64"⟩⟩]⟩]⟩,
   fun _ => ⟨.thrown "unused", fun _ => .thrown "unused", .thrown "unused", none⟩,
   fun _ => none, fun _ => none, fun f => f, fun _ => some "bytes"⟩

/-- A three-scene store whose first scene has a complete image asset. -/
def exImagesStore : Store :=
  ⟨[⟨"s1", 1, none, none, none, some "image_complete"⟩,
    ⟨"s2", 2, none, none, none, some "pending"⟩,
    ⟨"s3", 3, none, none, none, some "pending"⟩],
   [⟨"s1", "image", some "u1", some "complete"⟩],
   ⟨none, some 5, none, none⟩, 4⟩

/-- Witness for `remainingImages_batch`: over the three-scene store with a
fetchable first image, the batch run issues 2 generation calls, and the
single-scene run for "s3" issues 1. -/
theorem remainingImages_batch_witness :
    (remainingImages exImagesOracle ⟨none, none⟩ exImagesStore).genCalls = 3 - 1
    ∧ (remainingImages exImagesOracle ⟨some "s3", none⟩ exImagesStore).genCalls = 1 := by
  constructor
  · exact ((remainingImages_batch exImagesOracle ⟨none, none⟩ exImagesStore 3 rfl
      (by decide) (by rfl)).1 rfl).2.1
  · exact (remainingImages_batch exImagesOracle ⟨some "s3", none⟩ exImagesStore 3 rfl
      (by decide) (by rfl)).2 "s3" rfl (by decide) (by decide) (by decide)

/-- C6: when Scene 1's image bytes cannot be obtained
(`getFirstImageBase64` yields null), `remaining_images` fails with the
first-image-missing 400 error before processing any scene: no results, no
generation calls, and the store — every scene status and every asset —
unchanged. -/
theorem remainingImages_aborts_without_first_image (o : VisualsOracle)
    (req : ImagesRequest) (store : Store)
    (h : getFirstImageBase64 store.scenes store.assets o.fetchBytes = none) :
    remainingImages o req store
      = ⟨some ("First image not found. Please generate and confirm the first image first.", 400),
         [], 0, store⟩ := by
  simp only [remainingImages, h]

/-- An oracle whose storage fetch always fails. -/
def exNoRefOracle : VisualsOracle :=
  ⟨"u", "p", fun _ => .thrown "unused",
   fun _ => ⟨.thrown "unused", fun _ => .thrown "unused", .thrown "unused", none⟩,
   fun _ => none, fun _ => none, fun f => f, fun _ => none⟩

/-- A one-scene store with no assets at all. -/
def exNoRefStore : Store :=
  ⟨[⟨"s1", 1, none, none, none, some "pending"⟩], [], ⟨none, none, none, none⟩, 4⟩

/-- Witness for `remainingImages_aborts_without_first_image`: with no first
image the run leaves the store untouched and issues no generation call. -/
theorem remainingImages_aborts_without_first_image_witness :
    (remainingImages exNoRefOracle ⟨none, none⟩ exNoRefStore).store = exNoRefStore
    ∧ (remainingImages exNoRefOracle ⟨none, none⟩ exNoRefStore).genCalls = 0 := by
  rw [remainingImages_aborts_without_first_image exNoRefOracle ⟨none, none⟩ exNoRefStore rfl]
  exact ⟨rfl, rfl⟩

/-- The arguments of one `generateVideo(fullPrompt, imageBase64, duration)`
invocation made by the `remaining_videos` loop. -/
structure VideoCallRec where
  sceneId : String
  prompt : String
  seedImage : String
  durationSeconds : Nat
deriving Repr, DecidableEq

/-- The request fields of the generate-visuals route used by the
`remaining_videos` branch (`videoStyle` is parsed but this branch never reads
it: the style comes from the shot list). -/
structure VideosRequest where
  sceneId : Option String
  videoPrompt : Option String
  videoStyle : Option String
deriving Repr, DecidableEq

/-- One iteration of the `remaining_videos` loop for `scene`: fetch this
scene's own image as the seed (recording a failure and moving on when it is
missing), mark `generating`, build `confirmedStyle + scenePrompt`, call the
video backend through the retry wrapper, then upload/upsert or record the
failure.  The third component lists the video-generation invocations made. -/
def processRemainingVideo (o : VisualsOracle) (req : VideosRequest)
    (confirmedVideoStyle : String) (store : Store) (scene : Scene) :
    Store × SceneResult × List VideoCallRec :=
  match getSceneImageBase64 store.assets o.fetchBytes scene.id with
  | none => (store, ⟨scene.id, false, some "Scene image not found", none⟩, [])
  | some imageBase64 =>
    let store := setSceneStatus store scene.id "generating"
    let sceneVideoPrompt := if jsTruthy req.sceneId && jsTruthy req.videoPrompt then
        req.videoPrompt.getD ""
      else jsOr scene.video_prompt ""
    let fullPrompt := jsTrim (confirmedVideoStyle ++ ". " ++ sceneVideoPrompt)
    let store := if jsTruthy req.sceneId && jsTruthy req.videoPrompt then
      setSceneVideoPrompt store scene.id (req.videoPrompt.getD "") else store
    let dur := jsOrNat scene.duration_seconds 5
    let call : VideoCallRec := ⟨scene.id, fullPrompt, imageBase64, dur⟩
    let videoResult := generateVideo fullPrompt (some imageBase64) dur (o.videoOracle scene.id)
    if !videoResult.success || videoResult.videoBuffer.isNone then
      (setSceneStatus store scene.id "failed",
       ⟨scene.id, false, some (jsOr videoResult.error "Video generation failed"), none⟩, [call])
    else
      let videoFileName := o.userId ++ "/" ++ o.projectId ++ "/video/scene_"
        ++ padStart2 scene.order_index ++ ".mp4"
      match o.uploadError videoFileName with
      | some e =>
        (setSceneStatus store scene.id "failed",
         ⟨scene.id, false, some ("Video upload failed: " ++ e), none⟩, [call])
      | none =>
        let videoUrl := o.publicUrl videoFileName
        let store := upsertAsset store scene.id "video" (some videoUrl) (some "complete")
        let store := setSceneStatus store scene.id "complete"
        (store, ⟨scene.id, true, none, some videoUrl⟩, [call])

/-- The `for (const scene of scenesToProcess)` loop of `remaining_videos`. -/
def runRemainingVideos (o : VisualsOracle) (req : VideosRequest)
    (confirmedVideoStyle : String) :
    Store → List Scene → Store × List SceneResult × List VideoCallRec
  | store, [] => (store, [], [])
  | store, scene :: rest =>
    let step := processRemainingVideo o req confirmedVideoStyle store scene
    let restRun := runRemainingVideos o req confirmedVideoStyle step.1 rest
    (restRun.1, step.2.1 :: restRun.2.1, step.2.2 ++ restRun.2.2)

/-- Outcome of the `remaining_videos` branch. -/
structure VideosRun where
  routeError : Option (String × Nat)
  results : List SceneResult
  calls : List VideoCallRec
  store : Store

/-- The `case 'remaining_videos'` branch of the generate-visuals route:
`const confirmedVideoStyle = shotList.video_style`, rejected when falsy,
otherwise the sequential per-scene loop. -/
def remainingVideos (o : VisualsOracle) (req : VideosRequest) (store : Store) : VideosRun :=
  if !(jsTruthy store.shotList.video_style) then
    ⟨some ("Video style not confirmed. Please generate and confirm the first video first.", 400),
     [], [], store⟩
  else
    let confirmedVideoStyle := store.shotList.video_style.getD ""
    let scenesToProcess := if jsTruthy req.sceneId then
        store.scenes.filter (fun s => s.id == req.sceneId.getD "")
      else
        store.scenes.filter (fun s => s.order_index > 1)
    let run := runRemainingVideos o req confirmedVideoStyle store scenesToProcess
    ⟨none, run.2.1, run.2.2, run.1⟩

theorem find?_map_invariant {α : Type} (g : α → α) (pr : α → Bool)
    (hpr : ∀ a, pr (g a) = pr a) (hfix : ∀ a, pr a = true → g a = a) (l : List α) :
    (l.map g).find? pr = l.find? pr := by
  induction l with
  | nil => rfl
  | cons a t ih =>
    by_cases h : pr a = true
    · rw [List.map_cons, List.find?_cons_of_pos _ ((hpr a).trans h),
        List.find?_cons_of_pos _ h, hfix a h]
    · simp only [Bool.not_eq_true] at h
      rw [List.map_cons, List.find?_cons_of_neg _ (by simp [hpr a, h]),
        List.find?_cons_of_neg _ (by simp [h]), ih]

theorem find?_append_singleton {α : Type} (pr : α → Bool) (l : List α) (v : α)
    (hv : pr v = false) :
    (l ++ [v]).find? pr = l.find? pr := by
  induction l with
  | nil => simp [List.find?, hv]
  | cons a t ih =>
    by_cases h : pr a = true
    · rw [List.cons_append, List.find?_cons_of_pos _ h, List.find?_cons_of_pos _ h]
    · simp only [Bool.not_eq_true] at h
      rw [List.cons_append, List.find?_cons_of_neg _ (by simp [h]),
        List.find?_cons_of_neg _ (by simp [h]), ih]

theorem getSceneImageBase64_upsert_video (assets : List Asset) (sid0 : String)
    (p st : Option String) (f : String → Option String) (sid : String) :
    getSceneImageBase64 (upsertAssetList assets sid0 "video" p st) f sid
      = getSceneImageBase64 assets f sid := by
  have hfind : (upsertAssetList assets sid0 "video" p st).find? (fun a =>
      a.scene_id == sid && a.type == "image" && a.status == some "complete")
      = assets.find? (fun a =>
      a.scene_id == sid && a.type == "image" && a.status == some "complete") := by
    unfold upsertAssetList
    split
    · apply find?_map_invariant
      · intro a
        by_cases h : (a.scene_id == sid0 && a.type == "video") = true
        · rw [if_pos h]
          have : a.type = "video" := by
            have := (Bool.and_eq_true _ _).mp h
            exact beq_iff_eq.mp this.2
          simp [this]
        · rw [if_neg h]
      · intro a ha
        have : a.type = "image" := by
          have h1 := (Bool.and_eq_true _ _).mp ha
          have h2 := (Bool.and_eq_true _ _).mp h1.1
          exact beq_iff_eq.mp h2.2
        rw [if_neg]
        simp [this]
    · apply find?_append_singleton
      simp
  simp only [getSceneImageBase64, hfind]

theorem processRemainingVideo_preserves_imageFind (o : VisualsOracle) (req : VideosRequest)
    (sty : String) (store : Store) (scene : Scene) (sid : String) :
    getSceneImageBase64 (processRemainingVideo o req sty store scene).1.assets
        o.fetchBytes sid
      = getSceneImageBase64 store.assets o.fetchBytes sid := by
  simp only [processRemainingVideo]
  repeat' split
  all_goals try rfl
  all_goals exact getSceneImageBase64_upsert_video _ _ _ _ _ _

theorem processRemainingVideo_calls (o : VisualsOracle) (req : VideosRequest)
    (sty : String) (store : Store) (scene : Scene) :
    ∀ c ∈ (processRemainingVideo o req sty store scene).2.2,
      (∃ sp, c.prompt = jsTrim (sty ++ ". " ++ sp))
      ∧ getSceneImageBase64 store.assets o.fetchBytes c.sceneId = some c.seedImage := by
  intro c hc
  simp only [processRemainingVideo] at hc
  split at hc
  · simp at hc
  · next img heq =>
    repeat' split at hc
    all_goals simp only [List.mem_singleton] at hc
    all_goals subst hc
    all_goals exact ⟨⟨_, rfl⟩, heq⟩

theorem runRemainingVideos_calls (o : VisualsOracle) (req : VideosRequest) (sty : String) :
    ∀ (targets : List Scene) (store : Store),
      ∀ c ∈ (runRemainingVideos o req sty store targets).2.2,
        (∃ sp, c.prompt = jsTrim (sty ++ ". " ++ sp))
        ∧ getSceneImageBase64 store.assets o.fetchBytes c.sceneId = some c.seedImage := by
  intro targets
  induction targets with
  | nil => intro store c hc; simp [runRemainingVideos] at hc
  | cons scene rest ih =>
    intro store c hc
    simp only [runRemainingVideos, List.mem_append] at hc
    rcases hc with hc | hc
    · exact processRemainingVideo_calls o req sty store scene c hc
    · have h := ih (processRemainingVideo o req sty store scene).1 c hc
      refine ⟨h.1, ?_⟩
      rw [← processRemainingVideo_preserves_imageFind o req sty store scene c.sceneId]
      exact h.2

theorem processRemainingVideo_ignores_videoStyle (o : VisualsOracle) (sty : String)
    (store : Store) (scene : Scene) (s p v w : Option String) :
    processRemainingVideo o ⟨s, p, v⟩ sty store scene
      = processRemainingVideo o ⟨s, p, w⟩ sty store scene := rfl

theorem runRemainingVideos_ignores_videoStyle (o : VisualsOracle) (sty : String)
    (s p v w : Option String) :
    ∀ (targets : List Scene) (store : Store),
      runRemainingVideos o ⟨s, p, v⟩ sty store targets
        = runRemainingVideos o ⟨s, p, w⟩ sty store targets := by
  intro targets
  induction targets with
  | nil => intro store; rfl
  | cons scene rest ih =>
    intro store
    simp only [runRemainingVideos]
    rw [processRemainingVideo_ignores_videoStyle o sty store scene s p v w, ih]

/-- C5: `remaining_videos` is rejected before processing any scene when the
shot list's `video_style` is null (no calls, store unchanged); its outcome is
the same for every caller-supplied `videoStyle` request field; and every
video-generation call it makes uses a prompt built from the shot list's
stored `video_style` (`confirmedStyle + ". " + scenePrompt`, trimmed) and
that scene's own image bytes as the motion seed. -/
theorem remainingVideos_style_locked (o : VisualsOracle) (req : VideosRequest) (store : Store) :
    (store.shotList.video_style = none →
       remainingVideos o req store
         = ⟨some ("Video style not confirmed. Please generate and confirm the first video first.",
              400), [], [], store⟩)
    ∧ (∀ v, remainingVideos o { req with videoStyle := v } store
        = remainingVideos o req store)
    ∧ (∀ c ∈ (remainingVideos o req store).calls,
        (∃ sty sp, store.shotList.video_style = some sty
          ∧ c.prompt = jsTrim (sty ++ ". " ++ sp))
        ∧ getSceneImageBase64 store.assets o.fetchBytes c.sceneId = some c.seedImage) := by
  refine ⟨?_, ?_, ?_⟩
  · intro h
    simp only [remainingVideos, h]
    rfl
  · intro v
    cases req with
    | mk s p vs =>
      simp only [remainingVideos]
      by_cases h : (!(jsTruthy store.shotList.video_style)) = true
      · rw [if_pos h, if_pos h]
      · rw [if_neg h, if_neg h,
          runRemainingVideos_ignores_videoStyle o (store.shotList.video_style.getD "") s p v vs]
  · intro c hc
    by_cases h : jsTruthy store.shotList.video_style = true
    · obtain ⟨sty, hsty⟩ : ∃ sty, store.shotList.video_style = some sty := by
        cases hv : store.shotList.video_style with
        | none => rw [hv] at h; simp [jsTruthy] at h
        | some s => exact ⟨s, rfl⟩
      have hget : store.shotList.video_style.getD "" = sty := by rw [hsty]; rfl
      simp only [remainingVideos, h, Bool.not_true, Bool.false_eq_true, if_false] at hc
      rw [hget] at hc
      have hcalls := runRemainingVideos_calls o req sty _ store c hc
      obtain ⟨⟨sp, hsp⟩, hseed⟩ := hcalls
      exact ⟨⟨sty, sp, hsty, hsp⟩, hseed⟩
    · simp only [Bool.not_eq_true] at h
      simp only [remainingVideos, h] at hc
      simp at hc

/-- A backend oracle whose video generation returns bytes immediately and
whose storage fetch returns distinct bytes per path. -/
def exVidOracle : VisualsOracle :=
  ⟨"u", "p", fun _ => .thrown "unused",
   fun _ => ⟨.ok ⟨some "op", true, none,
               some ⟨some [⟨some ⟨some "vb64", none⟩⟩], none, none⟩⟩,
             fun _ => .thrown "unused", .thrown "unused", none⟩,
   fun _ => none, fun _ => none, fun f => f, fun pth => some ("bytes:" ++ pth)⟩

/-- A two-scene store with a confirmed `video_style` and a complete image for
scene 2. -/
def exVidStore : Store :=
  ⟨[⟨"s1", 1, none, none, none, some "complete"⟩,
    ⟨"s2", 2, none, some "pan", none, some "image_complete"⟩],
   [⟨"s2", "image", some "u2", some "complete"⟩],
   ⟨some "noir", some 1, some 2, some 3⟩, 4⟩

/-- `exVidStore` with no confirmed `video_style`. -/
def exVidNoStyleStore : Store :=
  ⟨[⟨"s1", 1, none, none, none, some "complete"⟩,
    ⟨"s2", 2, none, some "pan", none, some "image_complete"⟩],
   [⟨"s2", "image", some "u2", some "complete"⟩],
   ⟨none, some 1, some 2, some 3⟩, 4⟩

/-- The video-generation call `remaining_videos` makes for scene 2 of
`exVidStore`. -/
def exVidCall : VideoCallRec := ⟨"s2", jsTrim ("noir" ++ ". " ++ "pan"), "bytes:u2", 5⟩

/-- Witness for `remainingVideos_style_locked`: the null-style store is
rejected with no calls, and the recorded call for scene 2 of `exVidStore`
uses the stored style and scene 2's own bytes. -/
theorem remainingVideos_style_locked_witness :
    (remainingVideos exVidOracle ⟨none, none, none⟩ exVidNoStyleStore).calls = []
    ∧ ((∃ sty sp, exVidStore.shotList.video_style = some sty
          ∧ exVidCall.prompt = jsTrim (sty ++ ". " ++ sp))
       ∧ getSceneImageBase64 exVidStore.assets exVidOracle.fetchBytes exVidCall.sceneId
           = some exVidCall.seedImage) := by
  constructor
  · rw [(remainingVideos_style_locked exVidOracle ⟨none, none, none⟩ exVidNoStyleStore).1 rfl]
  · exact (remainingVideos_style_locked exVidOracle ⟨none, none, none⟩ exVidStore).2.2
      exVidCall (by decide)

/-- A clip handed to the assembly engine (`VideoClip` from
`src/lib/video/ffmpeg-processor.ts`). -/
structure VideoClip where
  url : String
  duration : Nat
  order : Int
deriving Repr, DecidableEq

/-- Insert a clip into an order-sorted list, before any clip of equal order
already there. -/
def insertClipByOrder (c : VideoClip) : List VideoClip → List VideoClip
  | [] => [c]
  | d :: rest => if c.order ≤ d.order then c :: d :: rest else d :: insertClipByOrder c rest

/-- `[...clips].sort((a, b) => a.order - b.order)`: a stable ascending sort by
`order`. -/
def sortClips : List VideoClip → List VideoClip
  | [] => []
  | c :: rest => insertClipByOrder c (sortClips rest)

/-- The `for` loop of `fetchAndWriteVideos` from slot index `i`: fetch each
clip's bytes (`fetch url = none` covers both a thrown fetch and a write
failure) and collect the slot file names, or abort with the error naming the
1-based clip index. -/
def fetchAndWriteVideosAux (fetch : String → Option String) :
    Nat → List VideoClip → Except String (List String)
  | _, [] => .ok []
  | i, clip :: rest =>
    match fetch clip.url with
    | none => .error ("Failed to fetch video clip " ++ toString (i + 1))
    | some _ =>
      match fetchAndWriteVideosAux fetch (i + 1) rest with
      | .error e => .error e
      | .ok names => .ok (("input" ++ toString i ++ ".mp4") :: names)

/-- `fetchAndWriteVideos` from `src/lib/video/ffmpeg-processor.ts`. -/
def fetchAndWriteVideos (fetch : String → Option String) (clips : List VideoClip) :
    Except String (List String) :=
  fetchAndWriteVideosAux fetch 0 clips

/-- `concatenateVideos`: sort the clips by `order`, fetch them all into
numbered slots, then run the stream-copy concat (`concatRun fileNames` is the
resulting output blob).  A fetch failure propagates and no blob is
produced. -/
def concatenateVideos (fetch : String → Option String) (concatRun : List String → String)
    (clips : List VideoClip) : Except String String :=
  match fetchAndWriteVideos fetch (sortClips clips) with
  | .error e => .error e
  | .ok fileNames => .ok (concatRun fileNames)

theorem fetchAndWriteVideosAux_fails (fetch : String → Option String) :
    ∀ (clips : List VideoClip) (i k : Nat) (hk : k < clips.length),
      fetch clips[k].url = none →
      (∀ j (hj : j < k), fetch (clips.get ⟨j, by omega⟩).url ≠ none) →
      fetchAndWriteVideosAux fetch i clips
        = .error ("Failed to fetch video clip " ++ toString (i + k + 1)) := by
  intro clips
  induction clips with
  | nil => intro i k hk; simp at hk
  | cons c rest ih =>
    intro i k hk hfail hbefore
    cases k with
    | zero =>
      simp only [List.getElem_cons_zero] at hfail
      simp [fetchAndWriteVideosAux, hfail]
    | succ k' =>
      have hc : fetch c.url ≠ none := by
        have := hbefore 0 (Nat.succ_pos k')
        simpa using this
      obtain ⟨b, hb⟩ := Option.ne_none_iff_exists'.mp hc
      have hrest := ih (i + 1) k' (by simpa using Nat.lt_of_succ_lt_succ hk)
        (by simpa using hfail)
        (by
          intro j hj
          have := hbefore (j + 1) (Nat.succ_lt_succ hj)
          simpa using this)
      simp only [fetchAndWriteVideosAux, hb, hrest]
      have : i + 1 + k' + 1 = i + (k' + 1) + 1 := by omega
      rw [this]

/-- C9: if, during an assembly run over `clips`, the fetch of the `k`-th clip
of the order-sorted list fails (all earlier sorted clips having fetched
successfully), the whole run aborts with the error naming that clip's 1-based
index `k + 1`, and no output blob is produced. -/
theorem concatenateVideos_fetch_failure_aborts (fetch : String → Option String)
    (concatRun : List String → String) (clips : List VideoClip) (k : Nat)
    (hk : k < (sortClips clips).length)
    (hfail : fetch (sortClips clips)[k].url = none)
    (hbefore : ∀ j (hj : j < k), fetch ((sortClips clips).get ⟨j, by omega⟩).url ≠ none) :
    concatenateVideos fetch concatRun clips
      = .error ("Failed to fetch video clip " ++ toString (k + 1))
    ∧ ∀ blob, concatenateVideos fetch concatRun clips ≠ .ok blob := by
  have h := fetchAndWriteVideosAux_fails fetch (sortClips clips) 0 k hk hfail hbefore
  have hmain : concatenateVideos fetch concatRun clips
      = .error ("Failed to fetch video clip " ++ toString (k + 1)) := by
    simp only [concatenateVideos, fetchAndWriteVideos, h, Nat.zero_add]
  exact ⟨hmain, fun blob hblob => by rw [hmain] at hblob; exact Except.noConfusion hblob⟩

/-- Three clips, given out of order; the fetch of "b" (sorted position 2,
i.e. index 1) fails while "a" succeeds. -/
def exClips : List VideoClip := [⟨"c", 6, 3⟩, ⟨"a", 4, 1⟩, ⟨"b", 5, 2⟩]

/-- The fetch oracle for `exClips`: url "b" is unreachable. -/
def exClipFetch : String → Option String :=
  fun u => if u == "b" then none else some ("bytes:" ++ u)

/-- Witness for `concatenateVideos_fetch_failure_aborts`: the run over
`exClips` aborts with the error naming clip 2 of the sorted order. -/
theorem concatenateVideos_fetch_failure_aborts_witness :
    concatenateVideos exClipFetch (String.intercalate "|") exClips
      = .error ("Failed to fetch video clip " ++ toString (1 + 1)) :=
  (concatenateVideos_fetch_failure_aborts exClipFetch (String.intercalate "|") exClips 1
    (by decide) (by decide) (by decide)).1
